import Mathlib

/-!
Verification of the yew-nested-router `Router` component (src/router.rs).

Strings are embedded as lists of characters (`Str`), so that the Rust
`str::split` / `join` operations become plainly recursive Lean functions.
A browser `Location` is represented by its path, a `Str`.

The `Target` trait and the `ScopeContext` type live in modules of the
repository that are not part of the provided sources; they are modelled
from the specification (see the doc comments on `TargetContract` and
`ScopeContext`).
-/

namespace YewNestedRouter

/-- A path string, embedded as the list of its characters. -/
abbrev Str := List Char

/-- Rust `str::split(sep)` on a character-list string: splits at every
occurrence of `sep`; the empty string yields `[[]]`, and separators at the
ends produce empty segments, exactly as in Rust. -/
def splitChar (sep : Char) : Str → List Str
  | [] => [[]]
  | c :: cs =>
    if c = sep then [] :: splitChar sep cs
    else
      match splitChar sep cs with
      | [] => [[c]]
      | l :: ls => (c :: l) :: ls

/-- Modelled from the spec: the external, application-defined Target
Contract (the `Target` trait of the repository is declared outside the
provided sources). It parses a path-segment sequence into an optional
typed value and renders a typed value back into a path-segment sequence. -/
structure TargetContract (T : Type) where
  parse_path : List Str → Option T
  render_path : T → List Str

/-- The messages processed by the `Router` component (`enum Msg` in
src/router.rs). A `Location` is represented by its path. -/
inductive Msg (T : Type) where
  | RouteChanged (location : Str)
  | ChangeTarget (target : T)

/-- Modelled from the spec: `ScopeContext` holds only the upward
navigation callback (its module is not among the provided sources). The
router always installs the callback wrapping a target into
`Msg.ChangeTarget`. -/
structure ScopeContext (T : Type) where
  upwards : T → Msg T

/-- The `RouterContext` published to descendants: the shared scope handle
and the currently active target. -/
structure RouterContext (T : Type) where
  scope : ScopeContext T
  active_target : Option T

/-- `RouterContext::is_same`: equality check against the active target; a
`none` active target never matches. -/
def RouterContext.is_same [DecidableEq T] (self : RouterContext T) (target : T) : Bool :=
  match self.active_target with
  | some current => decide (current = target)
  | none => false

/-- `RouterContext::is_active`: in the source this simply forwards to
`is_same` (marked FIXME there). -/
def RouterContext.is_active [DecidableEq T] (self : RouterContext T) (target : T) : Bool :=
  self.is_same target

/-- `RouterContext::active`: read-only access to the active target. -/
def RouterContext.active (self : RouterContext T) : Option T :=
  self.active_target

/-- The state of the `Router` component: the history (modelled as the
stack of pushed paths), the stored parsed target, and the two published
contexts. -/
structure Router (T : Type) where
  history : List Str
  target : Option T
  scope : ScopeContext T
  router : RouterContext T

/-- `Router::build_context`: build a fresh scope context whose callback
wraps targets into `Msg.ChangeTarget`, and a router context sharing that
scope handle and holding the given target. -/
def Router.build_context (target : Option T) : ScopeContext T × RouterContext T :=
  let scope : ScopeContext T := { upwards := Msg.ChangeTarget }
  (scope, { scope := scope, active_target := target })

/-- `Router::parse_location`: split the raw location path on the slash
character, skip the first segment, and hand the rest to the Target
Contract parser. -/
def Router.parse_location (tc : TargetContract T) (location : Str) : Option T :=
  let path : List Str := (splitChar '/' location).drop 1
  tc.parse_path path

/-- `Router::create`: parse the current location, fall back to the
caller-supplied default target, and build the initial contexts. -/
def Router.create (tc : TargetContract T) (default : Option T) (location : Str) :
    Router T :=
  let target := (Router.parse_location tc location).orElse (fun _ => default)
  let (scope, router) := Router.build_context target
  { history := [], target := target, scope := scope, router := router }

/-- `Router::sync_context`: rebuild both contexts from the stored target. -/
def Router.sync_context (self : Router T) : Router T :=
  let (scope, router) := Router.build_context self.target
  { self with scope := scope, router := router }

/-- `Router::update`: on a location change, re-parse (with default
substitution) and, only when the result differs from the stored target,
store it, rebuild the contexts and signal a re-render; on a navigation
request, render the target, join the segments with slashes behind a
leading slash, and push that path onto the history, signalling nothing. -/
def Router.update [DecidableEq T] (tc : TargetContract T) (default : Option T)
    (self : Router T) (msg : Msg T) : Router T × Bool :=
  match msg with
  | .RouteChanged location =>
    let target := (Router.parse_location tc location).orElse (fun _ => default)
    if target ≠ self.target then
      (({ self with target := target }).sync_context, true)
    else
      (self, false)
  | .ChangeTarget target =>
    let route : Str := '/' :: List.intercalate ['/'] (tc.render_path target)
    ({ self with history := route :: self.history }, false)

/-- `Router::changed`: rebuild the contexts from the current state and
signal a re-render. -/
def Router.changed (self : Router T) : Router T × Bool :=
  (self.sync_context, true)

/-- The context coherence invariant: the published router context holds
exactly the stored target and the stored scope handle. -/
def Router.ContextInvariant (self : Router T) : Prop :=
  self.router.active_target = self.target ∧ self.router.scope = self.scope

/-- The path-parsing algorithm exactly as the specification words it:
split the raw path on the slash character, discard the leading empty
segment produced by a leading slash, and pass all remaining segments
unchanged to the Target Contract parser. -/
def Router.parse_location_spec (tc : TargetContract T) (location : Str) : Option T :=
  match splitChar '/' location with
  | [] :: rest => tc.parse_path rest
  | segs => tc.parse_path segs

/-- A concrete Target Contract over `Unit` whose render output is the
empty segment sequence, and which parses back exactly that empty
sequence. -/
def unitContract : TargetContract Unit where
  parse_path := fun segs => if segs = [] then some () else none
  render_path := fun _ => []

/-- A concrete Target Contract over `Bool` used to instantiate theorems
on concrete inputs. -/
def boolContract : TargetContract Bool where
  parse_path := fun segs =>
    if segs = [['a']] then some true
    else if segs = [['b']] then some false
    else none
  render_path := fun b => if b then [['a']] else [['b']]

/-- A concrete router context with an active target, used to instantiate
theorems on concrete inputs. -/
def rcSome : RouterContext Bool :=
  { scope := { upwards := Msg.ChangeTarget }, active_target := some true }

/-- Helper: after a location-change message, both the stored target and the
published active target equal the re-parsed location with default
substitution, assuming the context invariant held before. -/
theorem update_route_changed_target_active [DecidableEq T] (tc : TargetContract T)
    (default : Option T) (s : Router T) (loc : Str) (hinv : s.ContextInvariant) :
    ((Router.update tc default s (Msg.RouteChanged loc)).1.target
        = (Router.parse_location tc loc).orElse (fun _ => default)) ∧
    ((Router.update tc default s (Msg.RouteChanged loc)).1.router.active_target
        = (Router.parse_location tc loc).orElse (fun _ => default)) := by
  simp only [Router.update]
  split
  · exact ⟨rfl, rfl⟩
  · next h =>
    have h2 : (Router.parse_location tc loc).orElse (fun _ => default) = s.target :=
      not_not.mp h
    exact ⟨h2.symm, by rw [hinv.1, h2]⟩

/-- Claim C1, counterexample: the segment-level round-trip hypothesis of the
claim is not enough. Over the Unit contract, rendering yields the empty
segment list, which parses back to the target, yet navigating and then
processing the resulting location change leaves the active target at none:
the pushed path is the bare slash, which re-splits into one empty segment,
not into the empty segment list. -/
theorem navigate_round_trip_insufficient :
    unitContract.parse_path (unitContract.render_path ()) = some () ∧
    (Router.create unitContract none ['/','x']).ContextInvariant ∧
    (Router.update unitContract none
        (Router.update unitContract none (Router.create unitContract none ['/','x'])
          (Msg.ChangeTarget ())).1
        (Msg.RouteChanged
          ('/' :: List.intercalate ['/'] (unitContract.render_path ())))).1.target
        ≠ some () ∧
    (Router.update unitContract none
        (Router.update unitContract none (Router.create unitContract none ['/','x'])
          (Msg.ChangeTarget ())).1
        (Msg.RouteChanged
          ('/' :: List.intercalate ['/'] (unitContract.render_path ())))).1.router.active
        ≠ some () :=
  ⟨rfl, ⟨rfl, rfl⟩, by decide, by decide⟩

/-- Claim C1 (amended): for every target X whose Target contract round-trips
through the rendered path string (parsing the location obtained by joining
the rendered segments with slashes behind a leading slash yields some X),
processing a navigation request for X pushes exactly that path, and then
processing the location-change event for the pushed path leaves both the
stored target and the published active target equal to some X. -/
theorem navigate_then_route_changed_active [DecidableEq T] (tc : TargetContract T)
    (default : Option T) (s : Router T) (X : T)
    (hround : Router.parse_location tc ('/' :: List.intercalate ['/'] (tc.render_path X))
        = some X)
    (hinv : s.ContextInvariant) :
    (Router.update tc default s (Msg.ChangeTarget X)).1.history
        = ('/' :: List.intercalate ['/'] (tc.render_path X)) :: s.history ∧
    (Router.update tc default (Router.update tc default s (Msg.ChangeTarget X)).1
        (Msg.RouteChanged ('/' :: List.intercalate ['/'] (tc.render_path X)))).1.target
        = some X ∧
    (Router.update tc default (Router.update tc default s (Msg.ChangeTarget X)).1
        (Msg.RouteChanged ('/' :: List.intercalate ['/'] (tc.render_path X)))).1.router.active
        = some X := by
  have h1 : (Router.update tc default s (Msg.ChangeTarget X)).1.ContextInvariant := hinv
  have h2 := update_route_changed_target_active tc default
    (Router.update tc default s (Msg.ChangeTarget X)).1
    ('/' :: List.intercalate ['/'] (tc.render_path X)) h1
  refine ⟨rfl, ?_, ?_⟩
  · rw [h2.1, hround]; rfl
  · show (Router.update tc default (Router.update tc default s (Msg.ChangeTarget X)).1
        (Msg.RouteChanged
          ('/' :: List.intercalate ['/'] (tc.render_path X)))).1.router.active_target
        = some X
    rw [h2.2, hround]; rfl

/-- Witness for the amended C1 theorem at the concrete Bool contract. -/
theorem navigate_then_route_changed_active_witness :
    Router.parse_location boolContract
        ('/' :: List.intercalate ['/'] (boolContract.render_path true)) = some true ∧
    (Router.create boolContract none ['/']).ContextInvariant ∧
    ((Router.update boolContract none (Router.create boolContract none ['/'])
        (Msg.ChangeTarget true)).1.history
        = ('/' :: List.intercalate ['/'] (boolContract.render_path true))
            :: (Router.create boolContract none ['/']).history ∧
     (Router.update boolContract none
        (Router.update boolContract none (Router.create boolContract none ['/'])
          (Msg.ChangeTarget true)).1
        (Msg.RouteChanged
          ('/' :: List.intercalate ['/'] (boolContract.render_path true)))).1.target
        = some true ∧
     (Router.update boolContract none
        (Router.update boolContract none (Router.create boolContract none ['/'])
          (Msg.ChangeTarget true)).1
        (Msg.RouteChanged
          ('/' :: List.intercalate ['/'] (boolContract.render_path true)))).1.router.active
        = some true) :=
  ⟨rfl, ⟨rfl, rfl⟩,
    navigate_then_route_changed_active boolContract none
      (Router.create boolContract none ['/']) true rfl ⟨rfl, rfl⟩⟩

/-- Claim C2: for every location whose path begins with a slash, the parsed
target is exactly what the specification describes — split the raw path on
the slash character, discard the leading empty segment produced by the
leading slash, and pass all remaining segments unchanged to the Target
Contract parser, with no other normalization. -/
theorem parse_location_follows_spec (tc : TargetContract T) (q : Str) :
    Router.parse_location tc ('/' :: q) = Router.parse_location_spec tc ('/' :: q) := rfl

/-- Claim C3: a location-change message is equality-gated. If the re-parsed
target (after default substitution) equals the stored one, update returns
the state unchanged with false; otherwise it returns true with the target
replaced and both contexts rebuilt from the new target. -/
theorem route_changed_equality_gated [DecidableEq T] (tc : TargetContract T)
    (default : Option T) (s : Router T) (loc : Str) :
    ((Router.parse_location tc loc).orElse (fun _ => default) = s.target →
      Router.update tc default s (Msg.RouteChanged loc) = (s, false)) ∧
    ((Router.parse_location tc loc).orElse (fun _ => default) ≠ s.target →
      Router.update tc default s (Msg.RouteChanged loc) =
        ({ history := s.history,
           target := (Router.parse_location tc loc).orElse (fun _ => default),
           scope :=
             (Router.build_context ((Router.parse_location tc loc).orElse (fun _ => default))).1,
           router :=
             (Router.build_context
               ((Router.parse_location tc loc).orElse (fun _ => default))).2 }, true)) := by
  constructor
  · intro h
    simp [Router.update, h]
  · intro h
    simp only [Router.update]
    rw [if_pos h]
    rfl

/-- Witness for the C3 theorem: a location that re-parses to the stored
target leaves the state unchanged and returns false. -/
theorem route_changed_equality_gated_witness :
    (Router.parse_location boolContract ['/','z']).orElse (fun _ => (none : Option Bool))
        = (Router.create boolContract none ['/']).target ∧
    Router.update boolContract none (Router.create boolContract none ['/'])
        (Msg.RouteChanged ['/','z'])
      = (Router.create boolContract none ['/'], false) :=
  ⟨by decide,
    (route_changed_equality_gated boolContract none (Router.create boolContract none ['/'])
      ['/','z']).1 (by decide)⟩

/-- Claim C4: whenever the Target Contract parser yields none for a
location, both at creation and on a location change, the stored target and
the published active target equal the caller-supplied default — some D
when a default D is configured, none otherwise. -/
theorem unmatched_path_default [DecidableEq T] (tc : TargetContract T)
    (default : Option T) (loc : Str) (s : Router T)
    (hparse : Router.parse_location tc loc = none)
    (hinv : s.ContextInvariant) :
    (Router.create tc default loc).target = default ∧
    (Router.create tc default loc).router.active = default ∧
    (Router.update tc default s (Msg.RouteChanged loc)).1.target = default ∧
    (Router.update tc default s (Msg.RouteChanged loc)).1.router.active = default := by
  have hor : (Router.parse_location tc loc).orElse (fun _ => default) = default := by
    rw [hparse]; rfl
  have hu := update_route_changed_target_active tc default s loc hinv
  refine ⟨?_, ?_, ?_, ?_⟩
  · show (Router.parse_location tc loc).orElse (fun _ => default) = default
    exact hor
  · show (Router.parse_location tc loc).orElse (fun _ => default) = default
    exact hor
  · rw [hu.1, hor]
  · show (Router.update tc default s (Msg.RouteChanged loc)).1.router.active_target = default
    rw [hu.2, hor]

/-- Witness for the C4 theorem: an unmatched path with a configured default
leaves the active target at that default. -/
theorem unmatched_path_default_witness :
    Router.parse_location boolContract ['/','z'] = none ∧
    ((Router.create boolContract (some false) ['/','z']).target = some false ∧
     (Router.create boolContract (some false) ['/','z']).router.active = some false ∧
     (Router.update boolContract (some false)
        (Router.create boolContract (some false) ['/','z'])
        (Msg.RouteChanged ['/','z'])).1.target = some false ∧
     (Router.update boolContract (some false)
        (Router.create boolContract (some false) ['/','z'])
        (Msg.RouteChanged ['/','z'])).1.router.active = some false) :=
  ⟨by decide,
    unmatched_path_default boolContract (some false) ['/','z']
      (Router.create boolContract (some false) ['/','z']) (by decide) ⟨rfl, rfl⟩⟩

/-- Claim C5: a navigation request pushes onto the history exactly the
rendered segments joined by slashes behind a single leading slash. -/
theorem change_target_pushes_rendered_path [DecidableEq T] (tc : TargetContract T)
    (default : Option T) (s : Router T) (t : T) :
    (Router.update tc default s (Msg.ChangeTarget t)).1.history =
      ('/' :: List.intercalate ['/'] (tc.render_path t)) :: s.history := rfl

/-- Claim C6: is_same returns false whenever the active target is none, and
returns the equality comparison with the active target otherwise. -/
theorem is_same_none_false_some_eq [DecidableEq T] (rc : RouterContext T) (t : T) :
    (rc.active = none → rc.is_same t = false) ∧
    (∀ a, rc.active = some a → rc.is_same t = decide (a = t)) := by
  obtain ⟨sc, ot⟩ := rc
  cases ot with
  | none =>
    refine ⟨fun _ => rfl, fun a ha => ?_⟩
    simp [RouterContext.active] at ha
  | some b =>
    refine ⟨fun hn => ?_, fun a ha => ?_⟩
    · simp [RouterContext.active] at hn
    · simp only [RouterContext.active, Option.some.injEq] at ha
      subst ha
      rfl

/-- Witness for the C6 theorem on a concrete context with an active target. -/
theorem is_same_none_false_some_eq_witness :
    rcSome.active = some true ∧ rcSome.is_same false = decide (true = false) :=
  ⟨rfl, (is_same_none_false_some_eq rcSome false).2 true rfl⟩

/-- Claim C7: is_active and is_same are extensionally equal. -/
theorem is_active_eq_is_same [DecidableEq T] (rc : RouterContext T) (t : T) :
    rc.is_active t = rc.is_same t := rfl

/-- Claim C8: a properties-change event returns true and rebuilds both
contexts from the currently stored target, leaving the stored target and
the history unchanged. -/
theorem changed_rebuilds_contexts (s : Router T) :
    (Router.changed s).2 = true ∧
    (Router.changed s).1.target = s.target ∧
    (Router.changed s).1.history = s.history ∧
    (Router.changed s).1.scope = (Router.build_context s.target).1 ∧
    (Router.changed s).1.router = (Router.build_context s.target).2 :=
  ⟨rfl, rfl, rfl, rfl, rfl⟩

/-- Claim C9: the context coherence invariant — the published router
context holds exactly the stored target and the stored scope handle —
holds after creation and is preserved by every message and by a
properties change. -/
theorem context_invariant_holds [DecidableEq T] (tc : TargetContract T) (default : Option T)
    (loc : Str) (s : Router T) (msg : Msg T) (hinv : s.ContextInvariant) :
    (Router.create tc default loc).ContextInvariant ∧
    ((Router.update tc default s msg).1).ContextInvariant ∧
    ((Router.changed s).1).ContextInvariant := by
  refine ⟨⟨rfl, rfl⟩, ?_, ⟨rfl, rfl⟩⟩
  cases msg with
  | RouteChanged loc2 =>
    simp only [Router.update]
    split
    · exact ⟨rfl, rfl⟩
    · exact hinv
  | ChangeTarget t => exact hinv

/-- Witness for the C9 theorem at concrete inputs. -/
theorem context_invariant_holds_witness :
    (Router.create boolContract none ['/','a']).ContextInvariant ∧
    ((Router.update boolContract none (Router.create boolContract none ['/','a'])
        (Msg.ChangeTarget false)).1).ContextInvariant ∧
    ((Router.changed (Router.create boolContract none ['/','a'])).1).ContextInvariant :=
  context_invariant_holds boolContract none ['/','a']
    (Router.create boolContract none ['/','a']) (Msg.ChangeTarget false) ⟨rfl, rfl⟩

/-- Claim C10: a navigation request by itself returns false and leaves the
stored target, the scope context and the router context unchanged; only
the history gains the pushed path. -/
theorem change_target_frame [DecidableEq T] (tc : TargetContract T) (default : Option T)
    (s : Router T) (t : T) :
    (Router.update tc default s (Msg.ChangeTarget t)).2 = false ∧
    (Router.update tc default s (Msg.ChangeTarget t)).1.target = s.target ∧
    (Router.update tc default s (Msg.ChangeTarget t)).1.scope = s.scope ∧
    (Router.update tc default s (Msg.ChangeTarget t)).1.router = s.router :=
  ⟨rfl, rfl, rfl, rfl⟩

end YewNestedRouter
